import Mathlib

/-!
Verification of the upgrade-coordination logic of the PostgreSQL
Kubernetes charm (`src/upgrade.py`, class `PostgreSQLUpgrade`).

The Python handlers are shallowly embedded as pure Lean functions.
External observations (patroni queries, peer-relation availability,
planned unit count, leadership, whether the Kubernetes API calls fail)
are collected in an `Env` record; the mutable world the handlers write
(the StatefulSet rolling-update partition, the peer-data fields) is a
`State` record threaded through each handler.  Python exceptions are
embedded as `Except` results; a handler that catches an exception
returns a plain value, a handler that lets it escape returns `.error`.
Machine integers are `Int` (Python ints are unbounded).
-/

namespace PostgreSQLUpgrade

/-- Embeds `lightkube.core.exceptions.ApiError` and
`ClusterNotReadyError` (message, cause) as a single Python-exception
type, since both can cross the boundaries of the functions modelled
here. -/
inductive PyError where
  | apiError
  | clusterNotReady (message : String) (cause : String)
  deriving DecidableEq, Repr

deriving instance DecidableEq for Except

/-- External, read-only inputs of one handler invocation: charm
identity, patroni observations, Juju facts, and whether each
Kubernetes API call would raise `ApiError`. -/
structure Env where
  /-- `self.charm.app.name`. -/
  appName : String
  /-- `self.charm.unit.name`. -/
  unitName : String
  /-- `self.charm.app.planned_units()`. -/
  plannedUnits : Nat
  /-- `self.charm.is_cluster_initialised`. -/
  isClusterInitialised : Bool
  /-- `self.charm.unit.is_leader()`. -/
  isLeader : Bool
  /-- `self.charm._patroni.member_started`. -/
  memberStarted : Bool
  /-- Truthiness of `self.peer_relation`. -/
  hasPeerRelation : Bool
  /-- `self.charm._patroni.get_primary(unit_name_pattern=True)`. -/
  primaryName : String
  /-- `self.charm._patroni.get_sync_standby_names()`. -/
  syncStandbyNames : List String
  /-- Whether `client.get(StatefulSet, ...)` raises `ApiError`. -/
  partitionReadFails : Bool
  /-- Whether `client.patch(StatefulSet, ...)` raises `ApiError`. -/
  partitionWriteFails : Bool
  /-- Result of `self.charm._patroni.switchover(unit_zero_name)`:
  `none` on success, `some msg` for `SwitchoverFailedError(msg)`. -/
  switchoverToZeroError : Option String
  /-- Result of the targetless `self.charm._patroni.switchover()`:
  `none` on success, `some msg` for `SwitchoverFailedError(msg)`. -/
  switchoverAnyError : Option String
  deriving DecidableEq, Repr

/-- The mutable world visible to the handlers: the StatefulSet
partition, the peer-data fields they write, and a log flag. -/
structure State where
  /-- `spec.updateStrategy.rollingUpdate.partition` of the StatefulSet. -/
  partition : Int
  /-- Every value successfully PATCHed into the partition field, in
  order (the write log of `_set_rolling_update_partition`). -/
  partitionWrites : List Int
  /-- Peer app-databag field `min-ordinal-sync-standbys` (a string in
  the databag; `none` when absent). -/
  minOrdinalSyncStandbys : Option String
  /-- This unit's peer databag field `state`
  (UnitUpgradeState: "not-started" / "upgrading" / "completed" / "failed"). -/
  unitState : String
  /-- Whether `log_rollback_instructions` has been emitted. -/
  rollbackInstructionsLogged : Bool
  deriving DecidableEq, Repr

/-- `f"{self.charm.app.name}/0"`. -/
def unitZeroName (env : Env) : String :=
  env.appName ++ "/0"

/-- `f"{self.charm.app.name}/{self.charm.app.planned_units() - 1}"`
(Python subtraction, so the ordinal is `-1` when no units are
planned). -/
def lastUnitName (env : Env) : String :=
  env.appName ++ "/" ++ toString ((env.plannedUnits : Int) - 1)

/-- `_get_rolling_update_partition`: read the partition from the
StatefulSet spec; raises `ApiError` when the Kubernetes call fails. -/
def get_rolling_update_partition (env : Env) (s : State) : Except PyError Int :=
  if env.partitionReadFails then .error .apiError else .ok s.partition

/-- `_set_rolling_update_partition(partition)`: PATCH the StatefulSet
partition; raises `ApiError` when the Kubernetes call fails. -/
def set_rolling_update_partition (env : Env) (p : Int) (s : State) :
    Except PyError Unit × State :=
  if env.partitionWriteFails then (.error .apiError, s)
  else (.ok (), { s with partition := p, partitionWrites := s.partitionWrites ++ [p] })

/-- `_set_first_rolling_update_partition`:
`self._set_rolling_update_partition(self.charm.app.planned_units() - 1)`. -/
def set_first_rolling_update_partition (env : Env) (s : State) :
    Except PyError Unit × State :=
  set_rolling_update_partition env ((env.plannedUnits : Int) - 1) s

/-- Modelled from the spec: `set_unit_completed` (provided by the
`charms.data_platform_libs.v0.upgrade.DataUpgrade` base class, not in
`src/`) records this unit's UnitUpgradeState as "completed" in its
per-unit peer databag. -/
def set_unit_completed (s : State) : State :=
  { s with unitState := "completed" }

/-- Modelled from the spec: `set_unit_failed` (provided by the
`charms.data_platform_libs.v0.upgrade.DataUpgrade` base class, not in
`src/`) records this unit's UnitUpgradeState as "failed" in its
per-unit peer databag. -/
def set_unit_failed (s : State) : State :=
  { s with unitState := "failed" }

/-- `log_rollback_instructions`: emits the two manual recovery
commands (pure logging). -/
def log_rollback_instructions (s : State) : State :=
  { s with rollbackInstructionsLogged := true }

/-- `_set_min_ordinal_sync_standbys`: no-op unless the cluster is
initialised and this unit is the leader; when additionally more than 2
units are planned and the primary is not unit zero, read the current
partition (this Kubernetes read may raise `ApiError`, which escapes
uncaught) and store it as `min-ordinal-sync-standbys` in the app peer
databag. -/
def set_min_ordinal_sync_standbys (env : Env) (s : State) :
    Except PyError Unit × State :=
  if env.isClusterInitialised = false ∨ env.isLeader = false then (.ok (), s)
  else if env.plannedUnits > 2 ∧ env.primaryName ≠ unitZeroName env then
    match get_rolling_update_partition env s with
    | .error e => (.error e, s)
    | .ok p => (.ok (), { s with minOrdinalSyncStandbys := some (toString p) })
  else (.ok (), s)

/-- How an event handler finished: it deferred the event, returned
without touching the unit state, or reached `set_unit_completed`. -/
inductive HandlerOutcome where
  | deferred
  | returned
  | completed
  deriving DecidableEq, Repr

/-- `_postgresql_on_pebble_ready`: defer without a peer relation;
no-op unless this unit's state is "upgrading"; defer until patroni has
started; if this unit is not unit zero, the primary is not unit zero,
at least one synchronous standby exists and the first synchronous
standby is not this unit, refresh `min-ordinal-sync-standbys` and
defer (an `ApiError` raised by the refresh escapes); otherwise mark
the unit completed. -/
def postgresql_on_pebble_ready (env : Env) (s : State) :
    Except PyError HandlerOutcome × State :=
  if env.hasPeerRelation = false then (.ok .deferred, s)
  else if s.unitState ≠ "upgrading" then (.ok .returned, s)
  else if env.memberStarted = false then (.ok .deferred, s)
  else if env.unitName ≠ unitZeroName env
      ∧ env.primaryName ≠ unitZeroName env
      ∧ env.syncStandbyNames.length > 0
      ∧ env.syncStandbyNames.head? ≠ some env.unitName then
    match set_min_ordinal_sync_standbys env s with
    | (.ok _, s₁) => (.ok .deferred, s₁)
    | (.error e, s₁) => (.error e, s₁)
  else (.ok .completed, set_unit_completed s)

/-- `_on_upgrade_changed`: defer without a peer relation; otherwise
refresh `min-ordinal-sync-standbys` (an `ApiError` raised by the
refresh escapes before `self.charm.update_config()`, an external
config-render call with no effect on this state, is reached). -/
def on_upgrade_changed (env : Env) (s : State) :
    Except PyError HandlerOutcome × State :=
  if env.hasPeerRelation = false then (.ok .deferred, s)
  else
    match set_min_ordinal_sync_standbys env s with
    | (.ok _, s₁) => (.ok .returned, s₁)
    | (.error e, s₁) => (.error e, s₁)

/-- Result of a Juju action: `event.set_results({"message": ...})` or
`event.fail(...)`. -/
inductive ActionResult where
  | success (message : String)
  | failure (message : String)
  deriving DecidableEq, Repr

/-- `_on_resume_upgrade`: read the partition, and when the decrement
stays non-negative write it back and report the next unit; `ApiError`
from either Kubernetes call is caught and reported as "Cannot set
rolling update partition"; otherwise the action fails with "Nothing to
resume, upgrade stack unset". -/
def on_resume_upgrade (env : Env) (s : State) : ActionResult × State :=
  match get_rolling_update_partition env s with
  | .error _ => (.failure "Cannot set rolling update partition", s)
  | .ok p =>
    let next := p - 1
    if next ≥ 0 then
      match set_rolling_update_partition env next s with
      | (.ok _, s₁) => (.success ("Upgrade will resume on unit " ++ toString next), s₁)
      | (.error _, s₁) => (.failure "Cannot set rolling update partition", s₁)
    else (.failure "Nothing to resume, upgrade stack unset", s)

/-- `_on_upgrade_finished`: when this unit is not
`app/{planned_units - 1}`, read the partition and, when the decrement
stays non-negative, write it back; on `ApiError` from either
Kubernetes call, mark the unit failed and log rollback instructions
(the exception is caught, nothing is re-raised). -/
def on_upgrade_finished (env : Env) (s : State) : State :=
  if env.unitName ≠ lastUnitName env then
    match get_rolling_update_partition env s with
    | .error _ => log_rollback_instructions (set_unit_failed s)
    | .ok p =>
      let next := p - 1
      if next ≥ 0 then
        match set_rolling_update_partition env next s with
        | (.ok _, s₁) => s₁
        | (.error _, s₁) => log_rollback_instructions (set_unit_failed s₁)
      else s
  else s

/-- A switchover request issued to patroni during the pre-upgrade
check: `switchover(unit_zero_name)` or the targetless `switchover()`. -/
inductive SwitchoverCall where
  | toTarget (target : String)
  | toAny
  deriving DecidableEq, Repr

/-- Result of `pre_upgrade_check`: normal return or a raised
exception, the final world state, and the switchover requests issued. -/
structure PreCheckResult where
  result : Except PyError Unit
  state : State
  switchoverCalls : List SwitchoverCall
  deriving DecidableEq, Repr

/-- Lifts the partition write at the end of a `pre_upgrade_check`
branch into a `PreCheckResult` (an `ApiError` from the PATCH escapes
uncaught). -/
def preCheckFinish (env : Env) (s : State) (calls : List SwitchoverCall) :
    PreCheckResult :=
  match set_first_rolling_update_partition env s with
  | (.ok _, s₁) => ⟨.ok (), s₁, calls⟩
  | (.error e, s₁) => ⟨.error e, s₁, calls⟩

/-- `pre_upgrade_check`: raise `ClusterNotReadyError` when the cluster
is not initialised; when the primary is unit zero, set the first
partition; when no synchronous standby exists, raise
`ClusterNotReadyError("invalid number of sync nodes", "no action!")`;
when unit zero is a synchronous standby, switch over to it (wrapping a
`SwitchoverFailedError` into `ClusterNotReadyError`) and set the first
partition; when the primary is the highest-ordinal unit, switch over
to any synchronous standby likewise; otherwise set the first partition
directly. -/
def pre_upgrade_check (env : Env) (s : State) : PreCheckResult :=
  if env.isClusterInitialised = false then
    ⟨.error (.clusterNotReady "cluster has not initialised yet"
      "cluster has not initialised yet"), s, []⟩
  else if env.primaryName = unitZeroName env then
    preCheckFinish env s []
  else if env.syncStandbyNames.length = 0 then
    ⟨.error (.clusterNotReady "invalid number of sync nodes" "no action!"), s, []⟩
  else if unitZeroName env ∈ env.syncStandbyNames then
    match env.switchoverToZeroError with
    | some msg =>
      ⟨.error (.clusterNotReady msg
        ("try to switchover manually to " ++ unitZeroName env)),
        s, [.toTarget (unitZeroName env)]⟩
    | none => preCheckFinish env s [.toTarget (unitZeroName env)]
  else if env.primaryName = lastUnitName env then
    match env.switchoverAnyError with
    | some msg =>
      ⟨.error (.clusterNotReady msg
        "try to manually switchover to any synchronous standby"),
        s, [.toAny]⟩
    | none => preCheckFinish env s [.toAny]
  else
    preCheckFinish env s []

/-! Concrete instances used by the witnesses and counterexamples. -/

/-- A three-unit deployment observed from unit `postgresql-k8s/1`,
with a healthy middle primary, unit zero as synchronous standby and
working Kubernetes API. -/
def baseEnv : Env :=
  { appName := "postgresql-k8s"
    unitName := "postgresql-k8s/1"
    plannedUnits := 3
    isClusterInitialised := true
    isLeader := true
    memberStarted := true
    hasPeerRelation := true
    primaryName := "postgresql-k8s/1"
    syncStandbyNames := ["postgresql-k8s/0"]
    partitionReadFails := false
    partitionWriteFails := false
    switchoverToZeroError := none
    switchoverAnyError := none }

/-- A mid-upgrade state: partition 2, this unit upgrading. -/
def baseState : State :=
  { partition := 2
    partitionWrites := []
    minOrdinalSyncStandbys := none
    unitState := "upgrading"
    rollbackInstructionsLogged := false }

/-! ## Helper lemmas -/

/-- `_set_min_ordinal_sync_standbys` never touches this unit's
UnitUpgradeState. -/
theorem set_min_snd_unitState (env : Env) (s : State) :
    (set_min_ordinal_sync_standbys env s).2.unitState = s.unitState := by
  unfold set_min_ordinal_sync_standbys get_rolling_update_partition
  split_ifs <;> rfl

/-- `_set_min_ordinal_sync_standbys` never touches the StatefulSet
partition nor its write log. -/
theorem set_min_preserves_partition (env : Env) (s : State) :
    (set_min_ordinal_sync_standbys env s).2.partition = s.partition
    ∧ (set_min_ordinal_sync_standbys env s).2.partitionWrites = s.partitionWrites := by
  unfold set_min_ordinal_sync_standbys get_rolling_update_partition
  split_ifs <;> exact ⟨rfl, rfl⟩

/-- With a working Kubernetes read, `_set_min_ordinal_sync_standbys`
raises nothing. -/
theorem set_min_fst_ok (env : Env) (s : State)
    (hread : env.partitionReadFails = false) :
    (set_min_ordinal_sync_standbys env s).1 = .ok () := by
  unfold set_min_ordinal_sync_standbys get_rolling_update_partition
  split_ifs <;> simp_all

/-- Pair form of `set_min_fst_ok`. -/
theorem set_min_eta (env : Env) (s : State)
    (hread : env.partitionReadFails = false) :
    set_min_ordinal_sync_standbys env s =
      (.ok (), (set_min_ordinal_sync_standbys env s).2) := by
  have h := Prod.mk.eta (p := set_min_ordinal_sync_standbys env s)
  rw [← h, set_min_fst_ok env s hread]

/-! ## Theorems -/

/-- C3: `_on_resume_upgrade` is a complete case analysis on the
current partition `P` (a Kubernetes partition is non-negative): with a
working Kubernetes API, `P > 0` sets the partition to `P - 1` and
succeeds with a message naming unit `P - 1`, while `P = 0` fails with
"Nothing to resume, upgrade stack unset"; if the partition read
raises `ApiError`, or the write is reached and raises `ApiError`, the
action fails with "Cannot set rolling update partition". -/
theorem on_resume_upgrade_cases (env : Env) (s : State) :
    (env.partitionReadFails = false → env.partitionWriteFails = false →
      (0 < s.partition →
        on_resume_upgrade env s =
          (.success ("Upgrade will resume on unit " ++ toString (s.partition - 1)),
           { s with partition := s.partition - 1,
                    partitionWrites := s.partitionWrites ++ [s.partition - 1] }))
      ∧ (s.partition = 0 →
        on_resume_upgrade env s =
          (.failure "Nothing to resume, upgrade stack unset", s)))
    ∧ (env.partitionReadFails = true →
        on_resume_upgrade env s =
          (.failure "Cannot set rolling update partition", s))
    ∧ (env.partitionReadFails = false → env.partitionWriteFails = true →
        0 < s.partition →
        on_resume_upgrade env s =
          (.failure "Cannot set rolling update partition", s)) := by
  refine ⟨fun hr hw => ⟨fun hp => ?_, fun hp => ?_⟩, fun hr => ?_, fun hr hw hp => ?_⟩
  · have hge : s.partition - 1 ≥ 0 := by omega
    simp [on_resume_upgrade, get_rolling_update_partition,
      set_rolling_update_partition, hr, hw, hge]
  · have hlt : ¬s.partition - 1 ≥ 0 := by omega
    simp [on_resume_upgrade, get_rolling_update_partition,
      set_rolling_update_partition, hr, hlt]
  · simp [on_resume_upgrade, get_rolling_update_partition, hr]
  · have hge : s.partition - 1 ≥ 0 := by omega
    simp [on_resume_upgrade, get_rolling_update_partition,
      set_rolling_update_partition, hr, hw, hge]

/-- C3 witness: on the base instance (partition 2, working API), the
resume action succeeds naming unit 1 and records the write of 1. -/
theorem on_resume_upgrade_cases_witness :
    on_resume_upgrade baseEnv baseState =
      (.success ("Upgrade will resume on unit " ++ toString (baseState.partition - 1)),
       { baseState with
           partition := baseState.partition - 1,
           partitionWrites := baseState.partitionWrites ++ [baseState.partition - 1] }) :=
  ((on_resume_upgrade_cases baseEnv baseState).1 rfl rfl).1 (by decide)

/-- C2: every successful run of `pre_upgrade_check` leaves the
partition at `planned_unit_count - 1`, hence within `[0, N-1]` for
every planned unit count `N > 0`, on every success branch. -/
theorem pre_upgrade_check_success_partition (env : Env) (s : State)
    (hN : 0 < env.plannedUnits)
    (hok : (pre_upgrade_check env s).result = .ok ()) :
    (pre_upgrade_check env s).state.partition = (env.plannedUnits : Int) - 1
    ∧ 0 ≤ (pre_upgrade_check env s).state.partition
    ∧ (pre_upgrade_check env s).state.partition ≤ (env.plannedUnits : Int) - 1 := by
  have hfin : ∀ calls, (preCheckFinish env s calls).result = .ok () →
      (preCheckFinish env s calls).state.partition = (env.plannedUnits : Int) - 1 := by
    intro calls h
    by_cases hw : env.partitionWriteFails = true
    · simp [preCheckFinish, set_first_rolling_update_partition,
        set_rolling_update_partition, hw] at h
    · simp only [Bool.not_eq_true] at hw
      simp [preCheckFinish, set_first_rolling_update_partition,
        set_rolling_update_partition, hw]
  have h1 : (pre_upgrade_check env s).state.partition = (env.plannedUnits : Int) - 1 := by
    revert hok
    unfold pre_upgrade_check
    split_ifs <;> (try split) <;> intro hok <;>
      first | simp at hok | exact hfin _ hok
  refine ⟨h1, ?_, ?_⟩ <;> omega

/-- C2 witness: with primary already unit zero in a 3-unit cluster,
the pre-check succeeds and the partition ends at 2 = 3 - 1. -/
theorem pre_upgrade_check_success_partition_witness :
    0 < ({ baseEnv with primaryName := "postgresql-k8s/0" } : Env).plannedUnits
    ∧ (pre_upgrade_check { baseEnv with primaryName := "postgresql-k8s/0" }
        baseState).state.partition = (3 : Int) - 1 :=
  ⟨by decide,
   (pre_upgrade_check_success_partition
     { baseEnv with primaryName := "postgresql-k8s/0" } baseState
     (by decide) (by decide)).1⟩

/-- C7: whenever the cluster is initialised, the primary is not unit
zero and patroni reports no synchronous standby, `pre_upgrade_check`
raises `ClusterNotReadyError("invalid number of sync nodes",
"no action!")`, leaves the whole state (in particular the partition)
unchanged and performs no switchover. -/
theorem pre_upgrade_check_no_sync_nodes (env : Env) (s : State)
    (hinit : env.isClusterInitialised = true)
    (hprim : env.primaryName ≠ unitZeroName env)
    (hsync : env.syncStandbyNames = []) :
    pre_upgrade_check env s =
      ⟨.error (.clusterNotReady "invalid number of sync nodes" "no action!"),
       s, []⟩ := by
  unfold pre_upgrade_check
  rw [if_neg (by simp [hinit]), if_neg hprim, if_pos (by simp [hsync])]

/-- C7 witness: concrete 3-unit cluster, middle primary, empty
synchronous-standby list. -/
theorem pre_upgrade_check_no_sync_nodes_witness :
    pre_upgrade_check { baseEnv with syncStandbyNames := [] } baseState =
      ⟨.error (.clusterNotReady "invalid number of sync nodes" "no action!"),
       baseState, []⟩ :=
  pre_upgrade_check_no_sync_nodes { baseEnv with syncStandbyNames := [] }
    baseState (by decide) (by decide) (by decide)

/-- C5: `_set_min_ordinal_sync_standbys` stores the current partition
value in the peer field `min-ordinal-sync-standbys` exactly when the
cluster is initialised, the caller is the leader, more than 2 units
are planned and the primary is not unit zero; in every other state (in
particular for any non-leader caller) it returns the state unchanged. -/
theorem set_min_ordinal_sync_standbys_characterization (env : Env) (s : State)
    (hread : env.partitionReadFails = false) :
    set_min_ordinal_sync_standbys env s =
      if env.isClusterInitialised = true ∧ env.isLeader = true
          ∧ env.plannedUnits > 2 ∧ env.primaryName ≠ unitZeroName env then
        (.ok (), { s with minOrdinalSyncStandbys := some (toString s.partition) })
      else (.ok (), s) := by
  unfold set_min_ordinal_sync_standbys get_rolling_update_partition
  split_ifs <;> simp_all

/-- C5 witness: on the base instance (initialised, leader, 3 planned
units, primary unit 1) the hint is written as the partition value "2". -/
theorem set_min_ordinal_sync_standbys_characterization_witness :
    set_min_ordinal_sync_standbys baseEnv baseState =
      (.ok (), { baseState with
        minOrdinalSyncStandbys := some (toString baseState.partition) }) := by
  rw [set_min_ordinal_sync_standbys_characterization baseEnv baseState rfl,
    if_pos (by decide)]

/-- C4: in `_postgresql_on_pebble_ready`, for an upgrading unit with
patroni started (and a working Kubernetes read): when this unit is not
unit zero, the primary is not unit zero, a synchronous standby exists
and the first synchronous standby is not this unit, the handler
refreshes `min-ordinal-sync-standbys` and defers, leaving the unit
state "upgrading"; in every other case it marks the unit "completed". -/
theorem postgresql_on_pebble_ready_gate (env : Env) (s : State)
    (hpeer : env.hasPeerRelation = true)
    (hstate : s.unitState = "upgrading")
    (hstarted : env.memberStarted = true)
    (hread : env.partitionReadFails = false) :
    ((env.unitName ≠ unitZeroName env ∧ env.primaryName ≠ unitZeroName env
        ∧ env.syncStandbyNames.length > 0
        ∧ env.syncStandbyNames.head? ≠ some env.unitName) →
      postgresql_on_pebble_ready env s =
        (.ok .deferred, (set_min_ordinal_sync_standbys env s).2)
      ∧ (set_min_ordinal_sync_standbys env s).2.unitState = "upgrading")
    ∧ (¬(env.unitName ≠ unitZeroName env ∧ env.primaryName ≠ unitZeroName env
        ∧ env.syncStandbyNames.length > 0
        ∧ env.syncStandbyNames.head? ≠ some env.unitName) →
      postgresql_on_pebble_ready env s = (.ok .completed, set_unit_completed s)) := by
  constructor
  · intro hcond
    refine ⟨?_, by rw [set_min_snd_unitState env s, hstate]⟩
    unfold postgresql_on_pebble_ready
    rw [if_neg (by simp [hpeer]), if_neg (by simp [hstate]),
      if_neg (by simp [hstarted]), if_pos hcond, set_min_eta env s hread]
  · intro hcond
    unfold postgresql_on_pebble_ready
    rw [if_neg (by simp [hpeer]), if_neg (by simp [hstate]),
      if_neg (by simp [hstarted]), if_neg hcond]

/-- C4 witness: concrete deferral case (unit 1, primary unit 2, first
synchronous standby unit 0) and concrete completion case (first
synchronous standby is this unit). -/
theorem postgresql_on_pebble_ready_gate_witness :
    postgresql_on_pebble_ready { baseEnv with primaryName := "postgresql-k8s/2" }
        baseState =
      (.ok .deferred,
       (set_min_ordinal_sync_standbys
         { baseEnv with primaryName := "postgresql-k8s/2" } baseState).2) :=
  ((postgresql_on_pebble_ready_gate
      { baseEnv with primaryName := "postgresql-k8s/2" } baseState
      rfl rfl rfl rfl).1 (by decide)).1

/-- C10: `_postgresql_on_pebble_ready` never writes the rolling-update
partition: in every branch (including an `ApiError` escaping from the
hint refresh) the partition value and the partition write log are
unchanged. -/
theorem postgresql_on_pebble_ready_preserves_partition (env : Env) (s : State) :
    (postgresql_on_pebble_ready env s).2.partition = s.partition
    ∧ (postgresql_on_pebble_ready env s).2.partitionWrites = s.partitionWrites := by
  have hp := set_min_preserves_partition env s
  unfold postgresql_on_pebble_ready
  split_ifs <;> (try split) <;> simp_all [set_unit_completed]

/-- C1 counterexample: in a 3-unit deployment with partition 2 and a
working Kubernetes API, the finishing unit `postgresql-k8s/0` is the
last-upgraded unit (ordinal 0), yet `_on_upgrade_finished` does change
the partition, from 2 to 1 — the branch that skips the partition
change tests for the highest-ordinal unit `app/{planned_units - 1}`,
not for ordinal 0. -/
theorem on_upgrade_finished_unit_zero_decrements :
    ({ baseEnv with unitName := "postgresql-k8s/0" } : Env).unitName
        = unitZeroName { baseEnv with unitName := "postgresql-k8s/0" }
    ∧ baseState.partition = 2
    ∧ (on_upgrade_finished { baseEnv with unitName := "postgresql-k8s/0" }
        baseState).partition = 1 := by
  decide

/-- C1 (amended): with a working Kubernetes API,
`_on_upgrade_finished` advances the partition down by one — with the
same "only when the result is ≥ 0" guard as resume — exactly when the
finishing unit is not the highest-ordinal unit
`app/{planned_units - 1}`; when the finishing unit is that unit,
nothing changes; and the partition never drops below 0 (in particular
ordinal 0 finishing at partition 0 causes no decrement). -/
theorem on_upgrade_finished_partition (env : Env) (s : State)
    (hr : env.partitionReadFails = false)
    (hw : env.partitionWriteFails = false) :
    ((env.unitName ≠ lastUnitName env ∧ 1 ≤ s.partition) →
      (on_upgrade_finished env s).partition = s.partition - 1)
    ∧ ((env.unitName = lastUnitName env ∨ s.partition < 1) →
      on_upgrade_finished env s = s)
    ∧ (0 ≤ s.partition → 0 ≤ (on_upgrade_finished env s).partition) := by
  have hdec : (env.unitName ≠ lastUnitName env ∧ 1 ≤ s.partition) →
      (on_upgrade_finished env s).partition = s.partition - 1 := by
    rintro ⟨hne, hp⟩
    have hge : s.partition - 1 ≥ 0 := by omega
    simp [on_upgrade_finished, get_rolling_update_partition,
      set_rolling_update_partition, hr, hw, hne, hge]
  have hkeep : (env.unitName = lastUnitName env ∨ s.partition < 1) →
      on_upgrade_finished env s = s := by
    rintro (heq | hp)
    · simp [on_upgrade_finished, heq]
    · by_cases hu : env.unitName = lastUnitName env
      · simp [on_upgrade_finished, hu]
      · have hlt : ¬s.partition - 1 ≥ 0 := by omega
        simp [on_upgrade_finished, get_rolling_update_partition, hr, hu, hlt]
  refine ⟨hdec, hkeep, fun h0 => ?_⟩
  by_cases hu : env.unitName = lastUnitName env
  · rw [hkeep (Or.inl hu)]; exact h0
  · by_cases hp : 1 ≤ s.partition
    · rw [hdec ⟨hu, hp⟩]; omega
    · rw [hkeep (Or.inr (by omega))]; exact h0

/-- C1 (amended) witness: unit `postgresql-k8s/1` of 3 (not the
highest ordinal) finishing at partition 2 advances it to 1. -/
theorem on_upgrade_finished_partition_witness :
    (on_upgrade_finished baseEnv baseState).partition
      = baseState.partition - 1 :=
  (on_upgrade_finished_partition baseEnv baseState rfl rfl).1 (by decide)

/-- C8: when the Kubernetes partition read — or the reached partition
write — raises `ApiError` inside `_on_upgrade_finished` for a
non-highest-ordinal unit, the handler marks the unit "failed" and logs
the rollback instructions; the exception is swallowed (the embedded
handler is total: it returns a plain `State`, never an `Except.error`). -/
theorem on_upgrade_finished_api_error (env : Env) (s : State)
    (hunit : env.unitName ≠ lastUnitName env)
    (herr : env.partitionReadFails = true
      ∨ (env.partitionWriteFails = true ∧ 1 ≤ s.partition)) :
    (on_upgrade_finished env s).unitState = "failed"
    ∧ (on_upgrade_finished env s).rollbackInstructionsLogged = true := by
  by_cases hread : env.partitionReadFails = true
  · simp [on_upgrade_finished, get_rolling_update_partition, hunit, hread,
      log_rollback_instructions, set_unit_failed]
  · simp only [Bool.not_eq_true] at hread
    rcases herr with h | ⟨hw, hp⟩
    · exact absurd h (by simp [hread])
    · have hge : s.partition - 1 ≥ 0 := by omega
      simp [on_upgrade_finished, get_rolling_update_partition,
        set_rolling_update_partition, hunit, hread, hw, hge,
        log_rollback_instructions, set_unit_failed]

/-- C8 witness: unit 1 of 3 finishing while the Kubernetes read
raises: the unit ends "failed" with rollback instructions logged. -/
theorem on_upgrade_finished_api_error_witness :
    (on_upgrade_finished { baseEnv with partitionReadFails := true }
      baseState).unitState = "failed"
    ∧ (on_upgrade_finished { baseEnv with partitionReadFails := true }
      baseState).rollbackInstructionsLogged = true :=
  on_upgrade_finished_api_error { baseEnv with partitionReadFails := true }
    baseState (by decide) (Or.inl rfl)

/-- An initialised leader observing a primary other than unit zero in
a 3-unit cluster, with the Kubernetes partition read raising
`ApiError`. -/
def errorEnv : Env :=
  { baseEnv with primaryName := "postgresql-k8s/2", partitionReadFails := true }

/-- `_set_min_ordinal_sync_standbys` propagates the `ApiError` of the
partition read when all its write-guards pass. -/
theorem set_min_read_error (env : Env) (s : State)
    (hinit : env.isClusterInitialised = true)
    (hleader : env.isLeader = true)
    (hplanned : 2 < env.plannedUnits)
    (hprimary : env.primaryName ≠ unitZeroName env)
    (hread : env.partitionReadFails = true) :
    set_min_ordinal_sync_standbys env s = (.error .apiError, s) := by
  unfold set_min_ordinal_sync_standbys get_rolling_update_partition
  rw [if_neg (by simp [hinit, hleader]), if_pos ⟨hplanned, hprimary⟩,
    if_pos hread]

/-- C9: for an initialised leader with more than 2 planned units and a
primary other than unit zero, an `ApiError` raised by the partition
read inside `_set_min_ordinal_sync_standbys` escapes uncaught from
`_on_upgrade_changed`, and likewise from `_postgresql_on_pebble_ready`
on the path that reaches the refresh: neither handler defers nor
swallows it. -/
theorem min_ordinal_api_error_propagates (env : Env) (s : State)
    (hpeer : env.hasPeerRelation = true)
    (hinit : env.isClusterInitialised = true)
    (hleader : env.isLeader = true)
    (hplanned : 2 < env.plannedUnits)
    (hprimary : env.primaryName ≠ unitZeroName env)
    (hread : env.partitionReadFails = true) :
    (on_upgrade_changed env s).1 = .error .apiError
    ∧ (s.unitState = "upgrading" → env.memberStarted = true →
        env.unitName ≠ unitZeroName env →
        env.syncStandbyNames.length > 0 →
        env.syncStandbyNames.head? ≠ some env.unitName →
        (postgresql_on_pebble_ready env s).1 = .error .apiError) := by
  have hmin := set_min_read_error env s hinit hleader hplanned hprimary hread
  constructor
  · unfold on_upgrade_changed
    rw [if_neg (by simp [hpeer]), hmin]
  · intro hstate hstarted hzero hlen hhead
    unfold postgresql_on_pebble_ready
    rw [if_neg (by simp [hpeer]), if_neg (by simp [hstate]),
      if_neg (by simp [hstarted]), if_pos ⟨hzero, hprimary, hlen, hhead⟩, hmin]

/-- C9 witness: concrete leader unit 1 of 3, primary unit 2, failing
Kubernetes read: both handlers end in the propagated `ApiError`. -/
theorem min_ordinal_api_error_propagates_witness :
    (on_upgrade_changed errorEnv baseState).1 = .error .apiError
    ∧ (postgresql_on_pebble_ready errorEnv baseState).1 = .error .apiError :=
  ⟨(min_ordinal_api_error_propagates errorEnv baseState rfl rfl rfl
      (by decide) (by decide) rfl).1,
   (min_ordinal_api_error_propagates errorEnv baseState rfl rfl rfl
      (by decide) (by decide) rfl).2 rfl rfl (by decide) (by decide) (by decide)⟩

/-- The switchover requests issued by `pre_upgrade_check` on an
initialised cluster, as a function of the patroni observations. -/
theorem pre_upgrade_check_calls (env : Env) (s : State)
    (hinit : env.isClusterInitialised = true) :
    (pre_upgrade_check env s).switchoverCalls =
      if env.primaryName = unitZeroName env then []
      else if env.syncStandbyNames.length = 0 then []
      else if unitZeroName env ∈ env.syncStandbyNames then
        [.toTarget (unitZeroName env)]
      else if env.primaryName = lastUnitName env then [.toAny]
      else [] := by
  have hcalls : ∀ calls, (preCheckFinish env s calls).switchoverCalls = calls := by
    intro calls
    unfold preCheckFinish set_first_rolling_update_partition
      set_rolling_update_partition
    split_ifs <;> rfl
  unfold pre_upgrade_check
  rw [if_neg (by simp [hinit])]
  split_ifs <;> (try split) <;> simp [hcalls]

/-- Partition value left by `preCheckFinish` when the PATCH works. -/
theorem preCheckFinish_partition_ok (env : Env) (s : State)
    (calls : List SwitchoverCall) (hw : env.partitionWriteFails = false) :
    (preCheckFinish env s calls).state.partition
      = (env.plannedUnits : Int) - 1 := by
  unfold preCheckFinish set_first_rolling_update_partition
    set_rolling_update_partition
  simp [hw]

/-- C6: on an initialised cluster, `pre_upgrade_check` requests a
switchover only when the primary is not unit zero, the
synchronous-standby list is non-empty, and either unit zero is a
synchronous standby (targeting unit zero) or the primary is the
highest-ordinal unit; when the primary is already unit zero, or is a
middle unit (not highest, with unit zero not among the synchronous
standbys), it sets the initial partition without any switchover. -/
theorem pre_upgrade_check_switchover_gate (env : Env) (s : State)
    (hinit : env.isClusterInitialised = true) :
    ((pre_upgrade_check env s).switchoverCalls ≠ [] →
      env.primaryName ≠ unitZeroName env
      ∧ env.syncStandbyNames ≠ []
      ∧ (unitZeroName env ∈ env.syncStandbyNames
          ∨ env.primaryName = lastUnitName env))
    ∧ (env.primaryName ≠ unitZeroName env → env.syncStandbyNames ≠ [] →
        unitZeroName env ∈ env.syncStandbyNames →
        (pre_upgrade_check env s).switchoverCalls
          = [.toTarget (unitZeroName env)])
    ∧ (env.primaryName = unitZeroName env →
        (pre_upgrade_check env s).switchoverCalls = []
        ∧ (env.partitionWriteFails = false →
            (pre_upgrade_check env s).state.partition
              = (env.plannedUnits : Int) - 1))
    ∧ (env.primaryName ≠ unitZeroName env →
        env.primaryName ≠ lastUnitName env →
        unitZeroName env ∉ env.syncStandbyNames →
        env.syncStandbyNames ≠ [] →
        (pre_upgrade_check env s).switchoverCalls = []
        ∧ (env.partitionWriteFails = false →
            (pre_upgrade_check env s).state.partition
              = (env.plannedUnits : Int) - 1)) := by
  refine ⟨fun hne => ?_, fun hp0 hsne hmem => ?_, fun hp0 => ⟨?_, fun hw => ?_⟩,
    fun hp0 hlast hmem hsne => ⟨?_, fun hw => ?_⟩⟩
  · rw [pre_upgrade_check_calls env s hinit] at hne
    by_cases hp0 : env.primaryName = unitZeroName env
    · simp [hp0] at hne
    · by_cases hlen : env.syncStandbyNames.length = 0
      · simp [hp0, hlen] at hne
      · refine ⟨hp0, by simpa [List.length_eq_zero] using hlen, ?_⟩
        by_cases hmem : unitZeroName env ∈ env.syncStandbyNames
        · exact Or.inl hmem
        · by_cases hlast : env.primaryName = lastUnitName env
          · exact Or.inr hlast
          · simp [hp0, hlen, hmem, hlast] at hne
  · rw [pre_upgrade_check_calls env s hinit, if_neg hp0,
      if_neg (by simp [List.length_eq_zero, hsne]), if_pos hmem]
  · rw [pre_upgrade_check_calls env s hinit]; simp [hp0]
  · unfold pre_upgrade_check
    rw [if_neg (by simp [hinit]), if_pos hp0]
    exact preCheckFinish_partition_ok env s [] hw
  · rw [pre_upgrade_check_calls env s hinit, if_neg hp0,
      if_neg (by simp [List.length_eq_zero, hsne]), if_neg hmem, if_neg hlast]
  · unfold pre_upgrade_check
    rw [if_neg (by simp [hinit]), if_neg hp0,
      if_neg (by simp [List.length_eq_zero, hsne]), if_neg hmem, if_neg hlast]
    exact preCheckFinish_partition_ok env s [] hw

/-- C6 witness: primary unit 1 of 3 with unit zero a synchronous
standby: the pre-check requests exactly the switchover to unit zero. -/
theorem pre_upgrade_check_switchover_gate_witness :
    (pre_upgrade_check baseEnv baseState).switchoverCalls
      = [.toTarget (unitZeroName baseEnv)] :=
  (pre_upgrade_check_switchover_gate baseEnv baseState rfl).2.1
    (by decide) (by decide) (by decide)

end PostgreSQLUpgrade
